import Mathlib

/-!
Verification of the birthday-window query and cache of the contacts backend
(repository `goit-pythonweb-hw-10`).

The embedded code is `BirthdayRepository` in `src/repository/bistdays.py`
(`serialize_contacts`, `deserialize_contacts`, `get_contacts`), the `Contact`
model of `src/database/models.py`, and the cache-key construction.  Dates are
modelled with an explicit proleptic-Gregorian calendar so that Python's
`timetuple().tm_yday` and PostgreSQL's `extract('doy', ...)` are both the
`dayOfYear` function below, and `datetime.now() + timedelta(days=g)` is
`addDays`.
-/

set_option maxRecDepth 16384

namespace Bistdays

/-! ## Calendar: day-of-year arithmetic (models `tm_yday` and SQL `doy`) -/

/-- Gregorian leap-year test. -/
def isLeap (y : Nat) : Bool :=
  (y % 4 == 0 && y % 100 != 0) || y % 400 == 0

/-- Number of days in month `m` (1-12) of year `y`. -/
def daysInMonth (y m : Nat) : Nat :=
  if m = 2 then (if isLeap y then 29 else 28)
  else if m = 4 ∨ m = 6 ∨ m = 9 ∨ m = 11 then 30
  else 31

/-- A calendar date (year, month 1-12, day 1-31). -/
structure SDate where
  year : Nat
  month : Nat
  day : Nat
deriving DecidableEq, Repr

/-- Day-of-year of a date, 1-based: models Python's `timetuple().tm_yday`
and PostgreSQL's `extract('doy', d)`. -/
def dayOfYear (d : SDate) : Nat :=
  (((List.range (d.month - 1)).map (fun i => daysInMonth d.year (i + 1))).sum) + d.day

/-- The calendar successor of a date. -/
def nextDay (d : SDate) : SDate :=
  if d.day < daysInMonth d.year d.month then ⟨d.year, d.month, d.day + 1⟩
  else if d.month < 12 then ⟨d.year, d.month + 1, 1⟩
  else ⟨d.year + 1, 1, 1⟩

/-- Date plus `g` calendar days: models `today + timedelta(days=g)`
(the time-of-day part of the naive `datetime` is irrelevant to `tm_yday`). -/
def addDays (d : SDate) : Nat → SDate
  | 0 => d
  | g + 1 => addDays (nextDay d) g

/-! ## Decimal rendering of naturals (models Python `str(int)` inside the
f-string that builds the cache key) -/

/-- Decimal digit character for `n < 10`. -/
def digitChar (n : Nat) : Char :=
  Char.ofNat (48 + n)

/-- Fuel-driven digit expansion; the fuel always suffices because a
number is smaller than itself plus one and shrinks under division by
ten. -/
def natCharsGo : Nat → Nat → List Char
  | 0, _ => []
  | fuel + 1, n =>
    if n < 10 then [digitChar n] else natCharsGo fuel (n / 10) ++ [digitChar (n % 10)]

/-- Decimal representation of a natural number as a list of digit
characters, most significant first: models Python's `str` on a
non-negative `int`. -/
def natChars (n : Nat) : List Char :=
  natCharsGo (n + 1) n

/-- The cache key of `get_contacts`, from the source line
`redis_key = f"{user.id}-{skip}-{limit}-{daygap}"`, as a character list. -/
def redisKeyChars (uid skip limit daygap : Nat) : List Char :=
  natChars uid ++ ('-' :: natChars skip) ++ ('-' :: natChars limit)
    ++ ('-' :: natChars daygap)

/-- The cache key as a string. -/
def redisKey (uid skip limit daygap : Nat) : String :=
  String.mk (redisKeyChars uid skip limit daygap)

/-! ## Python values and the serializer of `serialize_contacts` -/

/-- Zero-padded two-digit decimal rendering (Python `%02d`). -/
def pad2 (n : Nat) : List Char :=
  if n < 10 then '0' :: natChars n else natChars n

/-- Zero-padded four-digit decimal rendering (year field of ISO dates). -/
def pad4 (n : Nat) : List Char :=
  List.replicate (4 - (natChars n).length) '0' ++ natChars n

/-- Python `str(date)` / `date.isoformat()`: `YYYY-MM-DD`. -/
def dateChars (d : SDate) : List Char :=
  pad4 d.year ++ ('-' :: pad2 d.month) ++ ('-' :: pad2 d.day)

/-- Python `datetime.isoformat()`: `YYYY-MM-DDTHH:MM:SS`. -/
def datetimeIso (d : SDate) (hh mm ss : Nat) : String :=
  String.mk (dateChars d ++ ('T' :: pad2 hh) ++ (':' :: pad2 mm) ++ (':' :: pad2 ss))

/-- A Python attribute value as seen by the `serialize` inner function of
`serialize_contacts`: the primitive types of its `isinstance` check, the
`datetime` case, and everything else (dates, nested relations, arbitrary
objects).  Floats and foreign objects carry their Python string rendering
opaquely; they are never computed with. -/
inductive PyField where
  | pyInt (n : Int)
  | pyFloat (r : String)
  | pyStr (s : String)
  | pyBool (b : Bool)
  | pyNone
  | pyDatetime (d : SDate) (hh mm ss : Nat)
  | pyDate (d : SDate)
  | pyObj (s : String)
deriving DecidableEq

/-- A JSON-serializable primitive, the value type of one serialized field. -/
inductive JPrim where
  | jint (n : Int)
  | jfloat (r : String)
  | jstr (s : String)
  | jbool (b : Bool)
  | jnull
deriving DecidableEq

/-- Python `str(value)` for the values reaching the `else` branch of the
serializer (and for the others, where it is not used by the code). -/
def pyStrOf : PyField → String
  | .pyInt n => String.mk (if n < 0 then '-' :: natChars n.natAbs else natChars n.natAbs)
  | .pyFloat r => r
  | .pyStr s => s
  | .pyBool b => if b then String.mk ['T', 'r', 'u', 'e'] else String.mk ['F', 'a', 'l', 's', 'e']
  | .pyNone => String.mk ['N', 'o', 'n', 'e']
  | .pyDatetime d hh mm ss => String.mk (dateChars d ++ (' ' :: pad2 hh) ++ (':' :: pad2 mm) ++ (':' :: pad2 ss))
  | .pyDate d => String.mk (dateChars d)
  | .pyObj s => s

/-- One field through the `serialize` inner function of
`serialize_contacts`: `isinstance(value, (int, float, str, bool, NoneType))`
keeps the value, `isinstance(value, datetime)` takes its `isoformat()`, and
every other value is coerced with `str(value)`. -/
def serializeField : PyField → JPrim
  | .pyInt n => .jint n
  | .pyFloat r => .jfloat r
  | .pyStr s => .jstr s
  | .pyBool b => .jbool b
  | .pyNone => .jnull
  | .pyDatetime d hh mm ss => .jstr (datetimeIso d hh mm ss)
  | .pyDate d => .jstr (pyStrOf (.pyDate d))
  | .pyObj s => .jstr (pyStrOf (.pyObj s))

/-- The serialized mapping of one object: the loop
`for column in mapper.attrs: serialized[column.key] = ...` over the
attribute list of the instance. -/
def serializeObj (attrs : List (String × PyField)) : List (String × JPrim) :=
  attrs.map (fun p => (p.1, serializeField p.2))

/-! ## The Contact and User models -/

/-- The `Contact` ORM model of `src/database/models.py`: columns `id`,
`name`, `surname`, `email`, `phone_number`, `birstday` (a SQL `Date`) and
the nullable `notes`. -/
structure Contact where
  id : Nat
  name : String
  surname : String
  email : String
  phone_number : String
  birstday : SDate
  notes : Option String
deriving DecidableEq

/-- Modelled from the spec: the `User` model, which `bistdays.py` and
`users.py` import from `src.database.models` but which is absent from the
provided `models.py`; only its `id` is used by the birthday repository. -/
structure User where
  id : Nat
deriving DecidableEq

/-- Modelled from the spec: the owning-user reference of a contact
("owning user reference" in the spec's data model), which
`filter_by(user=user)` in `get_contacts` matches on but which is absent
from the provided `models.py`.  A stored row is a contact together with
its owner's id. -/
structure OwnedContact where
  owner : Nat
  row : Contact
deriving DecidableEq

/-- The attribute list of a `Contact` instance in `mapper.attrs` order
(column definition order of `models.py`). -/
def contactAttrs (c : Contact) : List (String × PyField) :=
  [("id", .pyInt c.id),
   ("name", .pyStr c.name),
   ("surname", .pyStr c.surname),
   ("email", .pyStr c.email),
   ("phone_number", .pyStr c.phone_number),
   ("birstday", .pyDate c.birstday),
   ("notes", match c.notes with | some s => .pyStr s | none => .pyNone)]

/-! ## JSON rendering (Python `json.dumps` with default separators) -/

/-- The opening-brace character of a JSON object. -/
def braceL : Char := Char.ofNat 123

/-- The closing-brace character of a JSON object. -/
def braceR : Char := Char.ofNat 125

/-- JSON string escaping of one character (quote and backslash; the
strings of this development stay in printable ASCII). -/
def escChar (c : Char) : List Char :=
  if c = '"' ∨ c = '\\' then ['\\', c] else [c]

/-- A JSON string literal. -/
def renderStr (s : String) : List Char :=
  '"' :: (s.data.flatMap escChar ++ ['"'])

/-- A JSON primitive value. -/
def renderPrim : JPrim → List Char
  | .jint n => if n < 0 then '-' :: natChars n.natAbs else natChars n.natAbs
  | .jfloat r => r.data
  | .jstr s => renderStr s
  | .jbool b => if b then ['t', 'r', 'u', 'e'] else ['f', 'a', 'l', 's', 'e']
  | .jnull => ['n', 'u', 'l', 'l']

/-- One `"key": value` member (Python's default `': '` separator). -/
def renderMember (p : String × JPrim) : List Char :=
  renderStr p.1 ++ (':' :: ' ' :: renderPrim p.2)

/-- A JSON object (Python's default `', '` separator). -/
def renderObj (o : List (String × JPrim)) : List Char :=
  braceL :: (List.intercalate [',', ' '] (o.map renderMember) ++ [braceR])

/-- A JSON array of objects. -/
def renderArr (os : List (List (String × JPrim))) : List Char :=
  '[' :: (List.intercalate [',', ' '] (os.map renderObj) ++ [']'])

/-- The whole of `serialize_contacts`:
`json.dumps([serialize(contact) for contact in contacts])`. -/
def serializeContacts (cs : List Contact) : String :=
  String.mk (renderArr (cs.map (fun c => serializeObj (contactAttrs c))))

/-! ## JSON parsing (model of `json.loads` on the payloads at hand) -/

/-- A deserialized object: the plain dictionary for one contact. -/
abbrev JObj := List (String × JPrim)

instance {ε α : Type} [DecidableEq ε] [DecidableEq α] : DecidableEq (Except ε α)
  | .error e1, .error e2 =>
    if h : e1 = e2 then isTrue (by rw [h]) else isFalse (by intro hc; cases hc; exact h rfl)
  | .error _, .ok _ => isFalse (by intro hc; cases hc)
  | .ok _, .error _ => isFalse (by intro hc; cases hc)
  | .ok a1, .ok a2 =>
    if h : a1 = a2 then isTrue (by rw [h]) else isFalse (by intro hc; cases hc; exact h rfl)

/-- Body of a JSON string literal, unescaping quote and backslash. -/
def parseStrAux : List Char → List Char → Option (String × List Char)
  | _acc, [] => none
  | acc, c :: rest =>
    if c = '"' then some (String.mk acc.reverse, rest)
    else if c = '\\' then
      match rest with
      | [] => none
      | c2 :: rest2 => parseStrAux (c2 :: acc) rest2
    else parseStrAux (c :: acc) rest

/-- Decimal digit test. -/
def isDigitCh (c : Char) : Bool :=
  48 ≤ c.toNat && c.toNat ≤ 57

/-- Run of decimal digits. -/
def parseNatAux : Nat → List Char → Nat × List Char
  | acc, [] => (acc, [])
  | acc, c :: rest =>
    if isDigitCh c then parseNatAux (acc * 10 + (c.toNat - 48)) rest
    else (acc, c :: rest)

/-- One JSON primitive. -/
def parsePrim : List Char → Option (JPrim × List Char)
  | 'n' :: 'u' :: 'l' :: 'l' :: rest => some (.jnull, rest)
  | 't' :: 'r' :: 'u' :: 'e' :: rest => some (.jbool true, rest)
  | 'f' :: 'a' :: 'l' :: 's' :: 'e' :: rest => some (.jbool false, rest)
  | '"' :: rest => (parseStrAux [] rest).map (fun p => (.jstr p.1, p.2))
  | '-' :: c :: rest =>
    if isDigitCh c then
      let p := parseNatAux (c.toNat - 48) rest
      some (.jint (-(p.1 : Int)), p.2)
    else none
  | c :: rest =>
    if isDigitCh c then
      let p := parseNatAux (c.toNat - 48) rest
      some (.jint (p.1 : Int), p.2)
    else none
  | [] => none

/-- Skip blanks. -/
def skipSp (l : List Char) : List Char :=
  l.dropWhile (fun c => c = ' ')

/-- Members of a JSON object after its opening brace. -/
def parseMembers : Nat → List (String × JPrim) → List Char → Option (JObj × List Char)
  | 0, _, _ => none
  | _, _, [] => none
  | fuel + 1, acc, c :: rest =>
    if c = '"' then
      match parseStrAux [] rest with
      | none => none
      | some (k, r1) =>
        match r1 with
        | ':' :: r2 =>
          match parsePrim (skipSp r2) with
          | none => none
          | some (v, r3) =>
            match r3 with
            | [] => none
            | ',' :: r4 => parseMembers fuel ((k, v) :: acc) (skipSp r4)
            | c2 :: r4 =>
              if c2 = braceR then some (((k, v) :: acc).reverse, r4) else none
        | _ => none
    else none

/-- One JSON object. -/
def parseObj (fuel : Nat) : List Char → Option (JObj × List Char)
  | [] => none
  | c :: rest =>
    if c = braceL then
      match rest with
      | [] => none
      | c2 :: r2 => if c2 = braceR then some ([], r2) else parseMembers fuel [] rest
    else none

/-- Elements of a JSON array of objects after its opening bracket. -/
def parseArrAux : Nat → List JObj → List Char → Option (List JObj × List Char)
  | 0, _, _ => none
  | fuel + 1, acc, l =>
    match parseObj fuel l with
    | none => none
    | some (o, r1) =>
      match r1 with
      | ',' :: r2 => parseArrAux fuel (o :: acc) (skipSp r2)
      | ']' :: r2 => some ((o :: acc).reverse, r2)
      | _ => none

/-- Errors a call can surface: a cache-store failure, a persistent-store
failure, `json.loads` applied to a non-string (`TypeError`), or malformed
JSON text (`ValueError`). -/
inductive PyErr where
  | cacheErr
  | dbErr
  | typeErr
  | valueErr
deriving DecidableEq

/-- Python `json.loads` on a JSON text holding an array of flat objects. -/
def jsonLoads (s : String) : Except PyErr (List JObj) :=
  match s.data with
  | '[' :: ']' :: r2 => if r2 = [] then .ok [] else .error .valueErr
  | '[' :: rest =>
    match parseArrAux (rest.length + 1) [] rest with
    | some (objs, r) => if r = [] then .ok objs else .error .valueErr
    | none => .error .valueErr
  | _ => .error .valueErr

/-- A value held by (or handed to) the Redis client: either a string/bytes
payload, or — as in the buggy `set` call of `get_contacts` — a raw Python
list of ORM `Contact` objects. -/
inductive PyVal where
  | str (s : String)
  | list (cs : List Contact)
deriving DecidableEq

/-- Python truthiness of a cached value (`if cached_contacts:`). -/
def truthy : PyVal → Bool
  | .str s => s ≠ ""
  | .list cs => cs ≠ []

/-- The body of `deserialize_contacts`: `json.loads(serialized_contacts)`.
Applied to a non-string (the raw list the buggy cache write stored) it
raises `TypeError`. -/
def deserializeContacts : PyVal → Except PyErr (List JObj)
  | .str s => jsonLoads s
  | .list _ => .error .typeErr

/-! ## The SELECT statement built by `get_contacts` and its semantics -/

/-- The day-of-year condition of the statement: either the wrap branch
`(extract doy >= start_day) | (extract doy <= end_day)` or the non-wrap
branch `extract(doy).between(start_day, end_day)` (SQL `BETWEEN` is
inclusive on both ends). -/
inductive DoyFilter where
  | orTails (s e : Nat)
  | between (s e : Nat)
deriving DecidableEq

/-- Truth of the day-of-year condition at a day-of-year `d`. -/
def DoyFilter.holds : DoyFilter → Nat → Bool
  | .orTails s e, d => decide (s ≤ d) || decide (d ≤ e)
  | .between s e, d => decide (s ≤ d) && decide (d ≤ e)

/-- The query `select(Contact).filter_by(user=user).filter(...).offset(skip)
.limit(limit)`: owner equality, a day-of-year condition, offset and limit —
and nothing else; in particular no ORDER BY clause. -/
structure Stmt where
  owner : Nat
  cond : DoyFilter
  offset : Nat
  limit : Nat
deriving DecidableEq

/-- The branch of `get_contacts` that picks the statement: the wrap-around
disjunction when `end_day < start_day`, the `between` interval otherwise. -/
def buildStmt (uid startDay endDay skip limit : Nat) : Stmt :=
  if endDay < startDay then ⟨uid, .orTails startDay endDay, skip, limit⟩
  else ⟨uid, .between startDay endDay, skip, limit⟩

/-- The WHERE clause of the statement at one stored row. -/
def stmtPred (st : Stmt) (oc : OwnedContact) : Bool :=
  (oc.owner == st.owner) && st.cond.holds (dayOfYear oc.row.birstday)

/-- Executing the statement over the stored table in its enumeration
order: WHERE, then OFFSET, then LIMIT.  With no ORDER BY the row order is
whatever order the storage enumerates. -/
def evalStmt (st : Stmt) (table : List OwnedContact) : List Contact :=
  (((table.filter (stmtPred st)).drop st.offset).take st.limit).map OwnedContact.row

/-! ## The retrieval run of `get_contacts` -/

/-- State of the cache store: its entries (an entry present here models
present-and-unexpired) and failure switches for the three client calls
`get`, `set` and `expire`. -/
structure CacheState where
  entries : List (String × PyVal)
  failGet : Bool
  failSet : Bool
  failExpire : Bool
deriving DecidableEq

/-- State of the persistent store: the contact table and a failure
switch for `db.execute`. -/
structure DbState where
  table : List OwnedContact
  fail : Bool
deriving DecidableEq

/-- Observable step of one retrieval: the window computation of lines
64-66, the cache lookup, a hit, the storage query, a storage write (never
emitted by this code), the cache write and the expiry call. -/
inductive Ev where
  | computeWindow (s e : Nat)
  | cacheGet (k : String)
  | cacheHit (k : String)
  | dbQuery (st : Stmt)
  | dbWrite
  | cacheSet (k : String) (v : PyVal)
  | cacheExpire (k : String) (ttl : Nat)
deriving DecidableEq

/-- Outcome of one retrieval: the returned (or raised) value, the cache
entries afterwards, and the trace of observable steps. -/
structure RunOut where
  res : Except PyErr (List JObj)
  cache : List (String × PyVal)
  trace : List Ev
deriving DecidableEq

/-- The body of `BirthdayRepository.get_contacts`, line by line: compute
`start_day`/`end_day` from the clock, build the cache key, ask the cache
(errors propagate — there is no exception handler in the source); on a
truthy cached value deserialize and return it; otherwise build the wrap-
aware statement, query storage, serialize the rows, then store
`list(contacts)` — not the serialized JSON — under the key, call
`expire(key, 3600)`, and return the deserialized serialization. -/
def getContacts (today : SDate) (skip limit daygap : Nat) (u : User)
    (db : DbState) (c : CacheState) : RunOut :=
  let startDay := dayOfYear today
  let endDay := dayOfYear (addDays today daygap)
  let key := redisKey u.id skip limit daygap
  let t0 : List Ev := [.computeWindow startDay endDay, .cacheGet key]
  if c.failGet then ⟨.error .cacheErr, c.entries, t0⟩
  else
    let st := buildStmt u.id startDay endDay skip limit
    let miss : RunOut :=
      if db.fail then ⟨.error .dbErr, c.entries, t0 ++ [.dbQuery st]⟩
      else
        let rows := evalStmt st db.table
        let serialized := serializeContacts rows
        if c.failSet then ⟨.error .cacheErr, c.entries, t0 ++ [.dbQuery st]⟩
        else
          let entries2 := (key, PyVal.list rows) :: c.entries
          if c.failExpire then
            ⟨.error .cacheErr, entries2, t0 ++ [.dbQuery st, .cacheSet key (.list rows)]⟩
          else
            ⟨deserializeContacts (.str serialized), entries2,
              t0 ++ [.dbQuery st, .cacheSet key (.list rows), .cacheExpire key 3600]⟩
    match c.entries.lookup key with
    | some v => if truthy v then ⟨deserializeContacts v, c.entries, t0 ++ [.cacheHit key]⟩ else miss
    | none => miss

/-! ## Concrete fixtures (used by witnesses and counterexamples) -/

/-- A contact whose birthday 12-30 has day-of-year 365 in its (leap) year. -/
def cDec : Contact := ⟨1, "Ann", "Lee", "a@b.c", "+380501112233", ⟨2000, 12, 30⟩, none⟩

/-- A contact whose birthday 06-15 has day-of-year 167 in its (leap) year. -/
def cJun : Contact := ⟨2, "Bob", "Kim", "b@b.c", "+380501112234", ⟨2000, 6, 15⟩, none⟩

/-- A second late-December contact with a larger primary key than `cDec`. -/
def cEnd : Contact := ⟨2, "Cid", "Roe", "c@b.c", "+380501112235", ⟨2004, 12, 31⟩, none⟩

/-- The serialized dictionary of one contact. -/
def objOf (c : Contact) : JObj := serializeObj (contactAttrs c)

/-- The fixed query date 2024-12-28 of the spec's worked example. -/
def today0 : SDate := ⟨2024, 12, 28⟩

/-- A user with id 1. -/
def u1 : User := ⟨1⟩

/-- A one-row table owned by user 1, healthy storage. -/
def dbOne : DbState := ⟨[⟨1, cDec⟩], false⟩

/-- An empty, healthy cache. -/
def cache0 : CacheState := ⟨[], false, false, false⟩

/-- A healthy cache already holding the JSON serialization of `[cDec]`
under user 1's key for `skip = 0`, `limit = 100`, `daygap = 7`. -/
def hitCache : CacheState :=
  ⟨[(redisKey 1 0 100 7, PyVal.str (serializeContacts [cDec]))], false, false, false⟩

/-- First call of the identical-arguments pair: empty cache, one matching
row. -/
def run1 : RunOut := getContacts today0 0 100 7 u1 dbOne cache0

/-- Second call with identical arguments against the cache the first call
left behind. -/
def run2 : RunOut := getContacts today0 0 100 7 u1 dbOne ⟨run1.cache, false, false, false⟩

/-- Storage enumerating the two matching rows with ids 2 then 1. -/
def tableRev : List OwnedContact := [⟨1, cEnd⟩, ⟨1, cDec⟩]

/-! ## Lemmas on decimal rendering and the cache key -/

theorem natCharsGo_fuel : ∀ {f1 : Nat} {f2 n : Nat}, n < f1 → n < f2 →
    natCharsGo f1 n = natCharsGo f2 n := by
  intro f1
  induction f1 with
  | zero => omega
  | succ f ih =>
    intro f2 n h1 h2
    cases f2 with
    | zero => omega
    | succ f2x =>
      by_cases h : n < 10
      · simp [natCharsGo, h]
      · have hd : n / 10 < n := Nat.div_lt_self (by omega) (by omega)
        show (if n < 10 then [digitChar n] else natCharsGo f (n / 10) ++ [digitChar (n % 10)])
          = (if n < 10 then [digitChar n] else natCharsGo f2x (n / 10) ++ [digitChar (n % 10)])
        rw [if_neg h, if_neg h, @ih f2x (n / 10) (by omega) (by omega)]

theorem digitChar_ne_dash {n : Nat} (h : n < 10) : digitChar n ≠ '-' := by
  interval_cases n <;> decide

theorem natChars_lt {n : Nat} (h : n < 10) : natChars n = [digitChar n] := by
  simp [natChars, natCharsGo, h]

theorem natChars_ge {n : Nat} (h : ¬ n < 10) :
    natChars n = natChars (n / 10) ++ [digitChar (n % 10)] := by
  show natCharsGo (n + 1) n = natChars (n / 10) ++ [digitChar (n % 10)]
  rw [natCharsGo, if_neg h,
    natCharsGo_fuel (show n / 10 < n from Nat.div_lt_self (by omega) (by omega))
      (Nat.lt_succ_self (n / 10))]
  rfl

theorem natChars_ne_nil (n : Nat) : natChars n ≠ [] := by
  by_cases h : n < 10
  · rw [natChars_lt h]
    simp
  · rw [natChars_ge h]
    simp

theorem natChars_length_pos (n : Nat) : 0 < (natChars n).length :=
  List.length_pos.mpr (natChars_ne_nil n)

theorem dash_not_mem_natChars (n : Nat) : '-' ∉ natChars n := by
  induction n using Nat.strong_induction_on with
  | _ n ih =>
    by_cases h : n < 10
    · rw [natChars_lt h]
      simp only [List.mem_singleton]
      exact fun hc => digitChar_ne_dash h hc.symm
    · rw [natChars_ge h]
      simp only [List.mem_append, List.mem_singleton]
      rintro (hc | hc)
      · exact ih (n / 10) (Nat.div_lt_self (by omega) (by omega)) hc
      · exact digitChar_ne_dash (Nat.mod_lt _ (by omega)) hc.symm

theorem digitChar_inj {a b : Nat} (ha : a < 10) (hb : b < 10)
    (h : digitChar a = digitChar b) : a = b := by
  interval_cases a <;> interval_cases b <;> first | rfl | (exact absurd h (by decide))

theorem natChars_inj : ∀ {a b : Nat}, natChars a = natChars b → a = b := by
  intro a
  induction a using Nat.strong_induction_on with
  | _ a ih =>
    intro b h
    by_cases ha : a < 10 <;> by_cases hb : b < 10
    · rw [natChars_lt ha, natChars_lt hb] at h
      exact digitChar_inj ha hb (List.singleton_injective h)
    · exfalso
      rw [natChars_lt ha, natChars_ge hb] at h
      have hlen := congrArg List.length h
      rw [List.length_append, List.length_singleton, List.length_singleton] at hlen
      have h1 := natChars_length_pos (b / 10)
      omega
    · exfalso
      rw [natChars_ge ha, natChars_lt hb] at h
      have hlen := congrArg List.length h
      rw [List.length_append, List.length_singleton, List.length_singleton] at hlen
      have h1 := natChars_length_pos (a / 10)
      omega
    · rw [natChars_ge ha, natChars_ge hb] at h
      have h2 := List.append_inj' h rfl
      have hdiv : a / 10 = b / 10 :=
        ih (a / 10) (Nat.div_lt_self (by omega) (by omega)) h2.1
      have hmod : a % 10 = b % 10 := by
        have := List.singleton_injective h2.2
        exact digitChar_inj (Nat.mod_lt _ (by omega)) (Nat.mod_lt _ (by omega)) this
      omega

/-- Splitting at the first dash is unambiguous when neither prefix
contains a dash. -/
theorem dash_split_inj : ∀ {xs ys : List Char} {as bs : List Char},
    '-' ∉ xs → '-' ∉ ys → xs ++ '-' :: as = ys ++ '-' :: bs →
    xs = ys ∧ as = bs := by
  intro xs
  induction xs with
  | nil =>
    intro ys as bs _ hy h
    cases ys with
    | nil => simpa using h
    | cons c cs =>
      exfalso
      simp only [List.nil_append, List.cons_append, List.cons.injEq] at h
      exact hy (h.1 ▸ List.mem_cons_self _ _)
  | cons x xs ihx =>
    intro ys as bs hx hy h
    cases ys with
    | nil =>
      exfalso
      simp only [List.cons_append, List.nil_append, List.cons.injEq] at h
      exact hx (h.1.symm ▸ List.mem_cons_self _ _)
    | cons c cs =>
      simp only [List.cons_append, List.cons.injEq] at h
      have := ihx (fun hm => hx (List.mem_cons_of_mem _ hm))
        (fun hm => hy (List.mem_cons_of_mem _ hm)) h.2
      exact ⟨by rw [h.1, this.1], this.2⟩

/-- Equal cache keys come from equal user ids: the id is the segment
before the first dash, and decimal digits contain no dash. -/
theorem redisKey_inj_uid {u1 s1 l1 g1 u2 s2 l2 g2 : Nat}
    (h : redisKey u1 s1 l1 g1 = redisKey u2 s2 l2 g2) : u1 = u2 := by
  have hc : redisKeyChars u1 s1 l1 g1 = redisKeyChars u2 s2 l2 g2 := by
    have := congrArg String.data h
    simpa [redisKey] using this
  unfold redisKeyChars at hc
  rw [List.append_assoc, List.append_assoc, List.append_assoc, List.append_assoc] at hc
  have := dash_split_inj (dash_not_mem_natChars u1) (dash_not_mem_natChars u2) hc
  exact natChars_inj this.1

/-! ## Run-shape lemmas for `get_contacts` -/

theorem buildStmt_owner (uid sd ed skip limit : Nat) :
    (buildStmt uid sd ed skip limit).owner = uid := by
  unfold buildStmt
  split <;> rfl

theorem buildStmt_offset (uid sd ed skip limit : Nat) :
    (buildStmt uid sd ed skip limit).offset = skip := by
  unfold buildStmt
  split <;> rfl

theorem buildStmt_limit (uid sd ed skip limit : Nat) :
    (buildStmt uid sd ed skip limit).limit = limit := by
  unfold buildStmt
  split <;> rfl

/-- The run on a cache-get failure: the error propagates (there is no
handler in the source) and storage is never consulted. -/
theorem getContacts_failGet (today : SDate) (skip limit g : Nat) (u : User)
    (db : DbState) (c : CacheState) (hfg : c.failGet = true) :
    getContacts today skip limit g u db c =
      ⟨.error .cacheErr, c.entries,
        [.computeWindow (dayOfYear today) (dayOfYear (addDays today g)),
         .cacheGet (redisKey u.id skip limit g)]⟩ := by
  unfold getContacts
  simp [hfg]

/-- The run on a cache hit (present, truthy value): the cached value is
deserialized and returned, the cache is unchanged, and the trace holds no
storage access. -/
theorem getContacts_hit (today : SDate) (skip limit g : Nat) (u : User)
    (db : DbState) (c : CacheState) (v : PyVal) (hfg : c.failGet = false)
    (hv : c.entries.lookup (redisKey u.id skip limit g) = some v)
    (ht : truthy v = true) :
    getContacts today skip limit g u db c =
      ⟨deserializeContacts v, c.entries,
        [.computeWindow (dayOfYear today) (dayOfYear (addDays today g)),
         .cacheGet (redisKey u.id skip limit g),
         .cacheHit (redisKey u.id skip limit g)]⟩ := by
  unfold getContacts
  simp [hfg, hv, ht]

/-- The run on a cache miss with both stores healthy: the statement is
built from the wrap-aware window, storage is queried, the raw row list —
not the JSON string — is written to the cache, the expiry is set to 3600,
and the deserialized serialization is returned. -/
theorem getContacts_miss (today : SDate) (skip limit g : Nat) (u : User)
    (db : DbState) (c : CacheState) (hfg : c.failGet = false)
    (hm : ∀ v, c.entries.lookup (redisKey u.id skip limit g) = some v → truthy v = false)
    (hdb : db.fail = false) (hs : c.failSet = false) (he : c.failExpire = false) :
    getContacts today skip limit g u db c =
      let st := buildStmt u.id (dayOfYear today) (dayOfYear (addDays today g)) skip limit
      let rows := evalStmt st db.table
      ⟨deserializeContacts (.str (serializeContacts rows)),
        (redisKey u.id skip limit g, PyVal.list rows) :: c.entries,
        [.computeWindow (dayOfYear today) (dayOfYear (addDays today g)),
         .cacheGet (redisKey u.id skip limit g),
         .dbQuery st,
         .cacheSet (redisKey u.id skip limit g) (.list rows),
         .cacheExpire (redisKey u.id skip limit g) 3600]⟩ := by
  unfold getContacts
  rcases hl : c.entries.lookup (redisKey u.id skip limit g) with _ | v
  · simp [hfg, hl, hdb, hs, he]
  · have := hm v hl
    simp [hfg, hl, this, hdb, hs, he]

/-- The run on a cache miss when the storage query fails: the storage
error propagates. -/
theorem getContacts_dbFail (today : SDate) (skip limit g : Nat) (u : User)
    (db : DbState) (c : CacheState) (hfg : c.failGet = false)
    (hm : ∀ v, c.entries.lookup (redisKey u.id skip limit g) = some v → truthy v = false)
    (hdb : db.fail = true) :
    getContacts today skip limit g u db c =
      ⟨.error .dbErr, c.entries,
        [.computeWindow (dayOfYear today) (dayOfYear (addDays today g)),
         .cacheGet (redisKey u.id skip limit g),
         .dbQuery (buildStmt u.id (dayOfYear today) (dayOfYear (addDays today g)) skip limit)]⟩ := by
  unfold getContacts
  rcases hl : c.entries.lookup (redisKey u.id skip limit g) with _ | v
  · simp [hfg, hl, hdb]
  · have := hm v hl
    simp [hfg, hl, this, hdb]

/-- The run on a cache miss when the cache write fails: the error
propagates and the request fails although storage answered. -/
theorem getContacts_failSet (today : SDate) (skip limit g : Nat) (u : User)
    (db : DbState) (c : CacheState) (hfg : c.failGet = false)
    (hm : ∀ v, c.entries.lookup (redisKey u.id skip limit g) = some v → truthy v = false)
    (hdb : db.fail = false) (hs : c.failSet = true) :
    getContacts today skip limit g u db c =
      ⟨.error .cacheErr, c.entries,
        [.computeWindow (dayOfYear today) (dayOfYear (addDays today g)),
         .cacheGet (redisKey u.id skip limit g),
         .dbQuery (buildStmt u.id (dayOfYear today) (dayOfYear (addDays today g)) skip limit)]⟩ := by
  unfold getContacts
  rcases hl : c.entries.lookup (redisKey u.id skip limit g) with _ | v
  · simp [hfg, hl, hdb, hs]
  · have := hm v hl
    simp [hfg, hl, this, hdb, hs]

/-- The run on a cache miss when the expire call fails: the error
propagates after the cache write. -/
theorem getContacts_failExpire (today : SDate) (skip limit g : Nat) (u : User)
    (db : DbState) (c : CacheState) (hfg : c.failGet = false)
    (hm : ∀ v, c.entries.lookup (redisKey u.id skip limit g) = some v → truthy v = false)
    (hdb : db.fail = false) (hs : c.failSet = false) (he : c.failExpire = true) :
    getContacts today skip limit g u db c =
      let st := buildStmt u.id (dayOfYear today) (dayOfYear (addDays today g)) skip limit
      let rows := evalStmt st db.table
      ⟨.error .cacheErr, (redisKey u.id skip limit g, PyVal.list rows) :: c.entries,
        [.computeWindow (dayOfYear today) (dayOfYear (addDays today g)),
         .cacheGet (redisKey u.id skip limit g),
         .dbQuery st,
         .cacheSet (redisKey u.id skip limit g) (.list rows)]⟩ := by
  unfold getContacts
  rcases hl : c.entries.lookup (redisKey u.id skip limit g) with _ | v
  · simp [hfg, hl, hdb, hs, he]
  · have := hm v hl
    simp [hfg, hl, this, hdb, hs, he]

/-- Every run's trace starts with the window computation followed by the
cache lookup: lines 64-67 execute before the cache is consulted, on hits
as on misses. -/
theorem getContacts_trace_shape (today : SDate) (skip limit g : Nat) (u : User)
    (db : DbState) (c : CacheState) :
    ∃ rest, (getContacts today skip limit g u db c).trace =
      Ev.computeWindow (dayOfYear today) (dayOfYear (addDays today g)) ::
        Ev.cacheGet (redisKey u.id skip limit g) :: rest := by
  unfold getContacts
  rcases c with ⟨es, fg, fs, fe⟩
  rcases db with ⟨tbl, dbf⟩
  cases fg
  · cases dbf <;> cases fs <;> cases fe <;>
      · rcases hl : es.lookup (redisKey u.id skip limit g) with _ | v
        · simp [hl]
        · cases ht : truthy v <;> simp [hl, ht]
  · simp

/-- No run of `get_contacts` ever writes to persistent storage: the
source only issues a SELECT. -/
theorem getContacts_no_dbWrite (today : SDate) (skip limit g : Nat) (u : User)
    (db : DbState) (c : CacheState) :
    Ev.dbWrite ∉ (getContacts today skip limit g u db c).trace := by
  unfold getContacts
  rcases c with ⟨es, fg, fs, fe⟩
  rcases db with ⟨tbl, dbf⟩
  cases fg
  · cases dbf <;> cases fs <;> cases fe <;>
      · rcases hl : es.lookup (redisKey u.id skip limit g) with _ | v
        · simp [hl]
        · cases ht : truthy v <;> simp [hl, ht]
  · simp

/-! ## Claims -/

/-- C1: for every date `today` and gap `g`, `get_contacts` picks the
wrap-aware rule correctly: with `start_day = dayOfYear today` and
`end_day = dayOfYear (today + g)`, when `end_day < start_day` the built
statement matches a contact of the user exactly when its birthday
day-of-year `d` satisfies `d >= start_day` or `d <= end_day`, and when
`end_day >= start_day` exactly when `start_day <= d <= end_day`; in
particular for `today = 2024-12-28`, `g = 7` the window is `(363, 4)`
(wrap case), a 12-30 birthday (day-of-year 365) matches and a 06-15
birthday (day-of-year 167) does not. -/
theorem get_contacts_wrap_rule :
    (∀ (today : SDate) (g uid skip limit : Nat) (oc : OwnedContact), oc.owner = uid →
      (dayOfYear (addDays today g) < dayOfYear today →
        (stmtPred (buildStmt uid (dayOfYear today) (dayOfYear (addDays today g)) skip limit) oc
            = true ↔
          dayOfYear today ≤ dayOfYear oc.row.birstday ∨
            dayOfYear oc.row.birstday ≤ dayOfYear (addDays today g))) ∧
      (dayOfYear today ≤ dayOfYear (addDays today g) →
        (stmtPred (buildStmt uid (dayOfYear today) (dayOfYear (addDays today g)) skip limit) oc
            = true ↔
          dayOfYear today ≤ dayOfYear oc.row.birstday ∧
            dayOfYear oc.row.birstday ≤ dayOfYear (addDays today g)))) ∧
    dayOfYear today0 = 363 ∧
    dayOfYear (addDays today0 7) = 4 ∧
    dayOfYear cDec.birstday = 365 ∧
    dayOfYear cJun.birstday = 167 ∧
    stmtPred (buildStmt 1 363 4 0 100) ⟨1, cDec⟩ = true ∧
    stmtPred (buildStmt 1 363 4 0 100) ⟨1, cJun⟩ = false := by
  refine ⟨?_, by decide, by decide, by decide, by decide, by decide, by decide⟩
  intro today g uid skip limit oc hoc
  constructor
  · intro hw
    unfold buildStmt
    rw [if_pos hw]
    simp [stmtPred, DoyFilter.holds, hoc]
  · intro hnw
    unfold buildStmt
    rw [if_neg (by omega)]
    simp [stmtPred, DoyFilter.holds, hoc]

/-- Witness for C1: at `today = 2024-12-28`, `g = 7`, the wrap branch
applies and the contact with birthday 12-30 satisfies the statement's
predicate. -/
theorem get_contacts_wrap_rule_witness :
    stmtPred
      (buildStmt 1 (dayOfYear today0) (dayOfYear (addDays today0 7)) 0 100)
      ⟨1, cDec⟩ = true :=
  ((get_contacts_wrap_rule.1 today0 7 1 0 100 ⟨1, cDec⟩ rfl).1 (by decide)).mpr
    (by decide)

/-- C2: every run computes the window as
`start_day = dayOfYear today` and `end_day = dayOfYear (today + g)` (first
trace event); and for `g = 0` the two coincide, so the statement's
condition holds exactly at that single day-of-year. -/
theorem get_contacts_window (today : SDate) (skip limit g : Nat) (u : User)
    (db : DbState) (c : CacheState) :
    ((getContacts today skip limit g u db c).trace.head? =
      some (.computeWindow (dayOfYear today) (dayOfYear (addDays today g)))) ∧
    (g = 0 → dayOfYear (addDays today g) = dayOfYear today ∧
      ∀ d uid,
        (buildStmt uid (dayOfYear today) (dayOfYear (addDays today g)) skip limit).cond.holds d
            = true ↔ d = dayOfYear today) := by
  constructor
  · obtain ⟨rest, h⟩ := getContacts_trace_shape today skip limit g u db c
    rw [h]
    rfl
  · intro hg
    subst hg
    have ha : addDays today 0 = today := rfl
    rw [ha]
    refine ⟨rfl, ?_⟩
    intro d uid
    unfold buildStmt
    rw [if_neg (by omega)]
    simp only [DoyFilter.holds, Bool.and_eq_true, decide_eq_true_eq]
    omega

/-- Witness for C2: at `g = 0` on 2024-12-28 the condition accepts
day-of-year 363 (the day itself). -/
theorem get_contacts_window_witness :
    (buildStmt 1 (dayOfYear today0) (dayOfYear (addDays today0 0)) 0 100).cond.holds 363
      = true :=
  (((get_contacts_window today0 0 100 0 u1 ⟨[], false⟩ ⟨[], false, false, false⟩).2
      rfl).2 363 1).mpr (by decide)

/-- C3: every row selected by the statement `get_contacts` builds is owned
by the requesting user (the `filter_by(user=user)` conjunct), and the
cache key `f"{user.id}-{skip}-{limit}-{daygap}"` determines the user id, so
two distinct users never share a cache entry.  The ownership column is
modelled from the spec, `models.py` as provided lacking it. -/
theorem get_contacts_owner_scoped :
    (∀ (uid sd ed skip limit : Nat) (table : List OwnedContact) (c : Contact),
      c ∈ evalStmt (buildStmt uid sd ed skip limit) table →
      ∃ oc, oc ∈ table ∧ oc.row = c ∧ oc.owner = uid) ∧
    (∀ ua sa la ga ub sb lb gb : Nat,
      redisKey ua sa la ga = redisKey ub sb lb gb → ua = ub) := by
  constructor
  · intro uid sd ed skip limit table c hc
    unfold evalStmt at hc
    obtain ⟨oc, hmem, hrow⟩ := List.mem_map.mp hc
    have h1 := List.take_subset _ _ hmem
    have h2 := List.drop_subset _ _ h1
    have h3 := List.mem_filter.mp h2
    refine ⟨oc, h3.1, hrow, ?_⟩
    have hb := h3.2
    simp only [stmtPred, Bool.and_eq_true, beq_iff_eq] at hb
    rw [hb.1, buildStmt_owner]
  · intro ua sa la ga ub sb lb gb h
    exact redisKey_inj_uid h

/-- Witness for C3: in a one-row table owned by user 1, the row returned
for user 1's query is that row, owned by user 1. -/
theorem get_contacts_owner_scoped_witness :
    ∃ oc, oc ∈ [(⟨1, cDec⟩ : OwnedContact)] ∧ oc.row = cDec ∧ oc.owner = 1 :=
  get_contacts_owner_scoped.1 1 363 4 0 100 [⟨1, cDec⟩] cDec (by decide)

/-- C4 (counterexample): a failing cache `get` makes the whole call fail
with the cache error instead of degrading to a storage query — the trace
stops at the lookup and storage is never consulted — and a failing cache
`set` likewise fails the call.  The claim that cache-store errors are
swallowed and treated as a miss is false: `get_contacts` wraps no cache
call in any handler. -/
theorem cache_error_not_swallowed_counterexample :
    ((getContacts today0 0 100 7 u1 dbOne ⟨[], true, false, false⟩).res
        = .error .cacheErr) ∧
    ((getContacts today0 0 100 7 u1 dbOne ⟨[], true, false, false⟩).trace
        = [.computeWindow 363 4, .cacheGet (redisKey 1 0 100 7)]) ∧
    ((getContacts today0 0 100 7 u1 dbOne ⟨[], false, true, false⟩).res
        = .error .cacheErr) := by
  decide

/-- C4 amended: errors of the cache store propagate to the caller — a
failing `get` fails the request before any storage query, and on a miss a
failing `set` or `expire` fails the request even though storage answered;
a failing persistent store also propagates, as the claim says. -/
theorem cache_errors_propagate (today : SDate) (skip limit g : Nat) (u : User)
    (db : DbState) (c : CacheState) :
    (c.failGet = true →
      (getContacts today skip limit g u db c).res = .error .cacheErr ∧
      ∀ st, Ev.dbQuery st ∉ (getContacts today skip limit g u db c).trace) ∧
    (c.failGet = false →
      (∀ v, c.entries.lookup (redisKey u.id skip limit g) = some v → truthy v = false) →
      ((db.fail = true → (getContacts today skip limit g u db c).res = .error .dbErr) ∧
       (db.fail = false → c.failSet = true →
         (getContacts today skip limit g u db c).res = .error .cacheErr) ∧
       (db.fail = false → c.failSet = false → c.failExpire = true →
         (getContacts today skip limit g u db c).res = .error .cacheErr))) := by
  constructor
  · intro hfg
    rw [getContacts_failGet today skip limit g u db c hfg]
    refine ⟨rfl, ?_⟩
    intro st
    simp
  · intro hfg hm
    refine ⟨?_, ?_, ?_⟩
    · intro hdb
      rw [getContacts_dbFail today skip limit g u db c hfg hm hdb]
    · intro hdb hs
      rw [getContacts_failSet today skip limit g u db c hfg hm hdb hs]
    · intro hdb hs he
      rw [getContacts_failExpire today skip limit g u db c hfg hm hdb hs he]

/-- Witness for the amended C4: a concrete failing cache `get` surfaces
the cache error. -/
theorem cache_errors_propagate_witness :
    (getContacts today0 0 100 7 u1 dbOne ⟨[], true, false, false⟩).res
      = .error .cacheErr :=
  ((cache_errors_propagate today0 0 100 7 u1 dbOne ⟨[], true, false, false⟩).1 rfl).1

/-- C5 (code bug): on a miss the code computes `serialized_contacts` but
then calls `self._redis.set(redis_key, list(contacts))` — the raw ORM row
list, not the JSON string — before `expire(key, 3600)`: the trace holds a
cache write of the raw list under the composed key and no write of the
serialized form. -/
theorem cache_write_stores_raw_list :
    (Ev.cacheSet (redisKey 1 0 100 7) (.list [cDec]) ∈ run1.trace) ∧
    (Ev.cacheExpire (redisKey 1 0 100 7) 3600 ∈ run1.trace) ∧
    (Ev.cacheSet (redisKey 1 0 100 7) (.str (serializeContacts [cDec])) ∉ run1.trace) := by
  decide

/-- C6 (counterexample): a run that hits the cache (the hit event is in
the trace and the cached JSON is deserialized and returned) still has the
window computation in its trace: lines 64-66 run unconditionally before
the lookup, so the hit path does compute the window. -/
theorem hit_computes_window_counterexample :
    (Ev.cacheHit (redisKey 1 0 100 7)
        ∈ (getContacts today0 0 100 7 u1 ⟨[], false⟩ hitCache).trace) ∧
    ((getContacts today0 0 100 7 u1 ⟨[], false⟩ hitCache).res = .ok [objOf cDec]) ∧
    (Ev.computeWindow 363 4
        ∈ (getContacts today0 0 100 7 u1 ⟨[], false⟩ hitCache).trace) := by
  decide

/-- C6 amended: on a present truthy cache entry the run deserializes and
returns it with no storage query and no cache write (though the window is
computed before the lookup, on hits as well), and no run ever writes to
persistent storage. -/
theorem hit_path_frame (today : SDate) (skip limit g : Nat) (u : User)
    (db : DbState) (c : CacheState) (v : PyVal) :
    (c.failGet = false → c.entries.lookup (redisKey u.id skip limit g) = some v →
      truthy v = true →
      ((getContacts today skip limit g u db c).res = deserializeContacts v ∧
       (getContacts today skip limit g u db c).cache = c.entries ∧
       (∀ st, Ev.dbQuery st ∉ (getContacts today skip limit g u db c).trace) ∧
       (∀ k w, Ev.cacheSet k w ∉ (getContacts today skip limit g u db c).trace))) ∧
    Ev.dbWrite ∉ (getContacts today skip limit g u db c).trace := by
  constructor
  · intro hfg hv ht
    rw [getContacts_hit today skip limit g u db c v hfg hv ht]
    refine ⟨rfl, rfl, ?_, ?_⟩
    · intro st
      simp
    · intro k w
      simp
  · exact getContacts_no_dbWrite today skip limit g u db c

/-- Witness for the amended C6: a concrete hit returns the deserialized
cached JSON. -/
theorem hit_path_frame_witness :
    (getContacts today0 0 100 7 u1 ⟨[], false⟩ hitCache).res
      = deserializeContacts (PyVal.str (serializeContacts [cDec])) :=
  ((hit_path_frame today0 0 100 7 u1 ⟨[], false⟩ hitCache
      (PyVal.str (serializeContacts [cDec]))).1 rfl (by decide) (by decide)).1

/-- C7 (code bug): with identical arguments inside the expiry window, the
first call succeeds and populates the cache, but because it stored the raw
row list instead of the JSON string, the second call hits the cache (no
storage query in its trace) and then fails in `json.loads` with a
`TypeError` instead of returning byte-identical output.  (Against a real
Redis client the first call would already fail: `set` rejects a Python
list value.) -/
theorem second_call_fails :
    (run1.res = .ok [objOf cDec]) ∧
    (run2.res = .error .typeErr) ∧
    (run2.trace = [.computeWindow 363 4, .cacheGet (redisKey 1 0 100 7),
      .cacheHit (redisKey 1 0 100 7)]) := by
  decide

/-- C8: the serializer of `serialize_contacts` is total on every attribute
list whatever the value types — the embedding is a function, mirroring
that no branch raises — keeps the key set of the per-contact mapping
identical to the attribute keys, keeps int, float, str, bool and None
values as they are, turns a datetime into its ISO string, and coerces
every other value (dates, nested relations, arbitrary objects) to its
Python string form instead of omitting it. -/
theorem serialize_contacts_total (attrs : List (String × PyField)) :
    ((serializeObj attrs).map Prod.fst = attrs.map Prod.fst) ∧
    (∀ n : Int, serializeField (.pyInt n) = .jint n) ∧
    (∀ r, serializeField (.pyFloat r) = .jfloat r) ∧
    (∀ s, serializeField (.pyStr s) = .jstr s) ∧
    (∀ b, serializeField (.pyBool b) = .jbool b) ∧
    (serializeField .pyNone = .jnull) ∧
    (∀ d hh mm ss, serializeField (.pyDatetime d hh mm ss) = .jstr (datetimeIso d hh mm ss)) ∧
    (∀ d, serializeField (.pyDate d) = .jstr (pyStrOf (.pyDate d))) ∧
    (∀ s, serializeField (.pyObj s) = .jstr (pyStrOf (.pyObj s))) := by
  refine ⟨?_, fun _ => rfl, fun _ => rfl, fun _ => rfl, fun _ => rfl, rfl,
    fun _ _ _ _ => rfl, fun _ => rfl, fun _ => rfl⟩
  simp [serializeObj]

/-- C9 (counterexample): the statement carries no ORDER BY, so the rows
come back in storage enumeration order: over a table enumerated as ids
`[2, 1]` (both matching, owned by user 1), `get_contacts` with `skip = 0`
returns id 2 before id 1 — not the claimed stable ascending primary-key
order. -/
theorem pagination_order_counterexample :
    (evalStmt (buildStmt 1 363 4 0 100) tableRev = [cEnd, cDec]) ∧
    ((getContacts today0 0 100 7 u1 ⟨tableRev, false⟩ cache0).res
        = .ok [objOf cEnd, objOf cDec]) ∧
    ((objOf cEnd).lookup ("id") = some (.jint 2)) ∧
    ((objOf cDec).lookup ("id") = some (.jint 1)) ∧
    ¬ (2 : Nat) ≤ 1 := by
  decide

/-- C9 amended: for `limit > 0` (and any skip), the query returns at most
`limit` records, those after the first `skip` matching rows in the
storage's own enumeration order — a sublist of the matching rows, but in
no imposed order, the statement having no ORDER BY clause. -/
theorem pagination_no_order (uid sd ed skip limit : Nat) (table : List OwnedContact)
    (hlim : 0 < limit) :
    (evalStmt (buildStmt uid sd ed skip limit) table).length ≤ limit ∧
    evalStmt (buildStmt uid sd ed skip limit) table =
      (((table.filter (stmtPred (buildStmt uid sd ed skip limit))).drop skip).take limit).map
        OwnedContact.row ∧
    (evalStmt (buildStmt uid sd ed skip limit) table).Sublist
      ((table.filter (stmtPred (buildStmt uid sd ed skip limit))).map OwnedContact.row) := by
  refine ⟨?_, ?_, ?_⟩
  · have h0 : 0 < limit := hlim
    simp only [evalStmt, List.length_map, List.length_take, buildStmt_limit]
    omega
  · unfold evalStmt
    rw [buildStmt_offset, buildStmt_limit]
  · unfold evalStmt
    exact ((List.take_sublist _ _).trans (List.drop_sublist _ _)).map OwnedContact.row

/-- Witness for the amended C9: the spec's pagination example `skip = 10`,
`limit = 5` yields at most 5 records on the concrete table. -/
theorem pagination_no_order_witness :
    (evalStmt (buildStmt 1 363 4 10 5) tableRev).length ≤ 5 :=
  (pagination_no_order 1 363 4 10 5 tableRev (by decide)).1

/-- C10: both return paths factor through `deserialize_contacts` — on a
truthy cache hit the result is the deserialized cached value, and on a
healthy miss it is the freshly queried rows serialized and then
deserialized — so either path yields plain dictionaries and ORM rows never
escape the repository. -/
theorem both_paths_deserialize (today : SDate) (skip limit g : Nat) (u : User)
    (db : DbState) (c : CacheState) (v : PyVal) :
    (c.failGet = false → c.entries.lookup (redisKey u.id skip limit g) = some v →
      truthy v = true →
      (getContacts today skip limit g u db c).res = deserializeContacts v) ∧
    (c.failGet = false →
      (∀ w, c.entries.lookup (redisKey u.id skip limit g) = some w → truthy w = false) →
      db.fail = false → c.failSet = false → c.failExpire = false →
      (getContacts today skip limit g u db c).res =
        deserializeContacts (.str (serializeContacts
          (evalStmt (buildStmt u.id (dayOfYear today) (dayOfYear (addDays today g)) skip limit)
            db.table)))) := by
  constructor
  · intro hfg hv ht
    rw [getContacts_hit today skip limit g u db c v hfg hv ht]
  · intro hfg hm hdb hs he
    rw [getContacts_miss today skip limit g u db c hfg hm hdb hs he]

/-- Witness for C10: the concrete miss run returns the deserialization of
the serialized fresh rows — a list of plain dictionaries. -/
theorem both_paths_deserialize_witness :
    (getContacts today0 0 100 7 u1 dbOne cache0).res =
      deserializeContacts (.str (serializeContacts
        (evalStmt (buildStmt u1.id (dayOfYear today0) (dayOfYear (addDays today0 7)) 0 100)
          dbOne.table))) :=
  (both_paths_deserialize today0 0 100 7 u1 dbOne cache0 (PyVal.str (""))).2 rfl
    (fun _w hw => Option.noConfusion hw) rfl rfl rfl

end Bistdays
